import Mathlib

set_option maxRecDepth 100000

/-
  Verification of the front-panel controller firmware of the repository
  (src/16F870_AVI_S21_MI.X/main.c, target PIC16F870).

  The controller keeps all of its state in the output latches of the PIC:

    PORTB bit 0..5 : the six source indicator LEDs
                     (disc, video, cd, a.v., tuner, tape)
    PORTB bit 6    : the record-mode LED (LED_REC)
    PORTC bit 0..4 : the five record-source indicator LEDs (LED_REC1..5)
    PORTC bit 7    : the MUTEn line (driven low = mute asserted)

  plus the debounce variables SW_Stable, SW_BounceCount, SW_Changed of the
  main loop.  We embed the two registers as natural numbers (the firmware
  only ever produces byte values from byte values; no operation overflows
  eight bits) and the loop body as pure step functions.
-/

/- ===================== data model ===================== -/

/-- The switch identity enumeration of the source (line 153):
typedef enum {SW_none, SW_1, ..., SW_6, SW_REC} SelectSwitch_t. -/
inductive SelectSwitch_t where
  | SW_none
  | SW_1
  | SW_2
  | SW_3
  | SW_4
  | SW_5
  | SW_6
  | SW_REC
  deriving DecidableEq

open SelectSwitch_t

/-- The two output registers that hold the amplifier state. -/
structure Ports where
  portB : Nat
  portC : Nat
  deriving DecidableEq

/-- The switch statement of PollSwitches (lines 159-181): decode the 3-bit
source code; codes 6 and 7 decode to no source. -/
def pollCode (code : Nat) : SelectSwitch_t :=
  match code with
  | 0 => SW_1
  | 1 => SW_2
  | 2 => SW_3
  | 3 => SW_4
  | 4 => SW_5
  | 5 => SW_6
  | _ => SW_none

/-- PollSwitches (lines 155-192): priority-encode the 3-bit source code on
PORTA bits 0-2; if no source code is asserted, an active-low record button
on PORTA bit 3 yields SW_REC. -/
def PollSwitches (portA : Nat) : SelectSwitch_t :=
  if pollCode (portA &&& 0x07) = SW_none then
    (if portA.testBit 3 = false then SW_REC else SW_none)
  else pollCode (portA &&& 0x07)

/-- Common body of the five non-tape source cases and of the tape case when
record mode is off (lines 239-263 and 269-274).  Argument i is the LED bit
index (0..5).  If the selected source LED is already lit, the MUTEn line is
toggled (LED_MUTEn_TOGGLE, line 102); then every other source LED is cleared
(bit 6, the record LED, is kept) and the selected LED is lit. -/
def selectCase (p : Ports) (i : Nat) : Ports :=
  let c := if p.portB &&& (1 <<< i) ≠ 0 then p.portC ^^^ (1 <<< 7) else p.portC
  let b := (p.portB &&& ((1 <<< i) ||| (1 <<< 6))) ||| (1 <<< i)
  Ports.mk b c

/-- The switch statement over SW_Stable (lines 237-278).  For SW_6 with the
record LED lit, PORTB = (PORTB ^ (1<<5)) ^ (PORTC & 0b00011111): the tape LED
toggles and the source LEDs 0..4 are exchanged with the record-source LEDs.
SW_REC and SW_none fall into the default case. -/
def switchBody (p : Ports) (sw : SelectSwitch_t) : Ports :=
  match sw with
  | SW_1 => selectCase p 0
  | SW_2 => selectCase p 1
  | SW_3 => selectCase p 2
  | SW_4 => selectCase p 3
  | SW_5 => selectCase p 4
  | SW_6 =>
      if p.portB.testBit 6 then
        Ports.mk ((p.portB ^^^ (1 <<< 5)) ^^^ (p.portC &&& 0x1F)) p.portC
      else
        selectCase p 5
  | _ => p

/-- Lines 279-282: a stable record press toggles the record-mode LED
(LED_REC_TOGGLE, line 101: PORTB ^= (1<<6)). -/
def recTogglePart (p : Ports) (sw : SelectSwitch_t) : Ports :=
  if sw = SW_REC then Ports.mk (p.portB ^^^ (1 <<< 6)) p.portC else p

/-- Lines 293-306: after any press other than SW_6 and SW_none, if the
record LED is lit and some source LED 0..4 is lit, copy the source LEDs 0..4
onto the record-source LEDs (PORTC ^= ((PORTC ^ PORTB) & 0b00011111));
if the record LED is off, clear the record-source LEDs
(PORTC &= 0b11100000). -/
def recSourcePart (p : Ports) (sw : SelectSwitch_t) : Ports :=
  if sw ≠ SW_6 ∧ sw ≠ SW_none then
    if p.portB.testBit 6 then
      if p.portB &&& 0x1F ≠ 0 then
        Ports.mk p.portB (p.portC ^^^ ((p.portC ^^^ p.portB) &&& 0x1F))
      else p
    else
      Ports.mk p.portB (p.portC &&& 0xE0)
  else p

/-- One debounced event applied to the registers: the whole processing block
guarded by if(SW_Changed), lines 235-306, with the event sw = SW_Stable. -/
def smStep (p : Ports) (sw : SelectSwitch_t) : Ports :=
  recSourcePart (recTogglePart (switchBody p sw) sw) sw

/-- The debounce variables of main (lines 199-202): SW_Stable,
SW_BounceCount and SW_Changed. -/
structure DebounceState where
  stable : SelectSwitch_t
  bounce : Nat
  changed : Bool
  deriving DecidableEq

/-- Lines 218-233 of the loop body: if the raw sample differs from
SW_Stable, track it and restart the 20-tick countdown; while the countdown
is nonzero, decrement it and raise SW_Changed when it reaches zero. -/
def debStep (d : DebounceState) (raw : SelectSwitch_t) : DebounceState :=
  let d1 := if raw ≠ d.stable then DebounceState.mk raw 20 d.changed else d
  if 0 < d1.bounce then
    DebounceState.mk d1.stable (d1.bounce - 1)
      (if d1.bounce - 1 = 0 then true else d1.changed)
  else d1

/-- The whole mutable state of the control loop. -/
structure Sys where
  deb : DebounceState
  ports : Ports
  deriving DecidableEq

/-- One iteration of the while(1) loop (lines 215-314), driven by the
sampled switch identity: debounce the sample, and if SW_Changed was raised,
run the processing block (smStep) on SW_Stable and clear SW_Changed
(line 307). -/
def sysTick (s : Sys) (raw : SelectSwitch_t) : Sys :=
  if (debStep s.deb raw).changed then
    Sys.mk
      (DebounceState.mk (debStep s.deb raw).stable (debStep s.deb raw).bounce false)
      (smStep s.ports (debStep s.deb raw).stable)
  else
    Sys.mk (debStep s.deb raw) s.ports

/-- Power-up register state: PIC_Init writes PORTB = 0, PORTC = 0
(lines 128-130). -/
def initPorts : Ports := Ports.mk 0 0

/-- Power-up loop state: SW_Stable = SW_none, SW_BounceCount = 0,
SW_Changed = 0 (lines 199-202). -/
def sysInit : Sys := Sys.mk (DebounceState.mk SW_none 0 false) initPorts

/-- Run the loop from power-up on a finite list of raw samples. -/
def runSys (l : List SelectSwitch_t) : Sys := l.foldl sysTick sysInit

/-- A loop state reachable from power-up by some sequence of ticks and
(sampled) button inputs. -/
def Reachable (s : Sys) : Prop := ∃ l : List SelectSwitch_t, runSys l = s

/-- A register state reachable from power-up. -/
def RPorts (p : Ports) : Prop := ∃ l : List SelectSwitch_t, (runSys l).ports = p

/-- The loop state trajectory under an infinite raw sample stream. -/
def sysRun (inputs : Nat → SelectSwitch_t) : Nat → Sys
  | 0 => sysInit
  | n + 1 => sysTick (sysRun inputs n) (inputs n)

/-- The debouncer emits changed = true at tick n of the stream. -/
def fires (inputs : Nat → SelectSwitch_t) (n : Nat) : Bool :=
  (debStep (sysRun inputs n).deb (inputs n)).changed

/- ===================== spec-level projections ===================== -/

/-- The active amplifier source as shown by the source LEDs PORTB 0..5
(1 = disc .. 6 = tape). -/
def activeSourceOf (p : Ports) : Option Nat :=
  if p.portB.testBit 0 then some 1
  else if p.portB.testBit 1 then some 2
  else if p.portB.testBit 2 then some 3
  else if p.portB.testBit 3 then some 4
  else if p.portB.testBit 4 then some 5
  else if p.portB.testBit 5 then some 6
  else none

/-- The mute state: the MUTEn line (PORTC bit 7) is active low, and
PIC_Init starts with it driven low, i.e. muted. -/
def mutedOf (p : Ports) : Bool := !p.portC.testBit 7

/-- Record mode, as shown by the record LED (PORTB bit 6). -/
def recordModeOf (p : Ports) : Bool := p.portB.testBit 6

/-- The source routed to the tape recorder, as shown by the five
record-source LEDs PORTC 0..4 (1 = disc .. 5 = tuner). -/
def recordSourceOf (p : Ports) : Option Nat :=
  if p.portC.testBit 0 then some 1
  else if p.portC.testBit 1 then some 2
  else if p.portC.testBit 2 then some 3
  else if p.portC.testBit 3 then some 4
  else if p.portC.testBit 4 then some 5
  else none

/-- While record mode is on, the tape LED (PORTB bit 5) shows whether the
amplifier listens to the tape output rather than to the record source. -/
def tapeMonitorOf (p : Ports) : Bool := p.portB.testBit 5

/-- The source number carried by a switch identity. -/
def sourceIndex (e : SelectSwitch_t) : Option Nat :=
  match e with
  | SW_1 => some 1
  | SW_2 => some 2
  | SW_3 => some 3
  | SW_4 => some 4
  | SW_5 => some 5
  | SW_6 => some 6
  | _ => none

/- ===================== reachable register states ===================== -/

/-- All register pairs (PORTB, PORTC) reachable from power-up.  PORTB is one
of: no LED, a single source LED 0..5, each optionally with the record LED
(bit 6); PORTC is a single record-source LED 0..4 or none, with the MUTEn
bit 7 free; when the record LED is off the record-source LEDs are off, and
when it is on with a non-tape source LED lit, the record-source LED agrees
with it. -/
def InvPairs : List (Nat × Nat) :=
  [(0, 0), (0, 128), (1, 0), (1, 128), (2, 0), (2, 128), (4, 0), (4, 128),
   (8, 0), (8, 128), (16, 0), (16, 128), (32, 0), (32, 128),
   (64, 0), (64, 128),
   (65, 1), (65, 129), (66, 2), (66, 130), (68, 4), (68, 132),
   (72, 8), (72, 136), (80, 16), (80, 144),
   (96, 0), (96, 1), (96, 2), (96, 4), (96, 8), (96, 16),
   (96, 128), (96, 129), (96, 130), (96, 132), (96, 136), (96, 144)]

/-- The register invariant: the registers form one of the pairs above. -/
def RegInv (p : Ports) : Prop := (p.portB, p.portC) ∈ InvPairs

instance (p : Ports) : Decidable (RegInv p) :=
  inferInstanceAs (Decidable ((p.portB, p.portC) ∈ InvPairs))

/-- All eight switch identities. -/
def swAll : List SelectSwitch_t :=
  [SW_none, SW_1, SW_2, SW_3, SW_4, SW_5, SW_6, SW_REC]

/- ===================== invariant lemmas ===================== -/

lemma swAll_mem (e : SelectSwitch_t) : e ∈ swAll := by
  cases e <;> decide

lemma smStep_mem :
    ∀ q ∈ InvPairs, ∀ e ∈ swAll,
      ((smStep (Ports.mk q.1 q.2) e).portB, (smStep (Ports.mk q.1 q.2) e).portC)
        ∈ InvPairs := by
  decide

lemma inv_smStep (p : Ports) (hp : RegInv p) (e : SelectSwitch_t) :
    RegInv (smStep p e) :=
  smStep_mem (p.portB, p.portC) hp e (swAll_mem e)

lemma inv_sysTick (s : Sys) (h : RegInv s.ports) (raw : SelectSwitch_t) :
    RegInv (sysTick s raw).ports := by
  unfold sysTick
  split
  · exact inv_smStep s.ports h _
  · exact h

lemma inv_foldl :
    ∀ (l : List SelectSwitch_t) (s : Sys), RegInv s.ports →
      RegInv ((l.foldl sysTick s).ports) := by
  intro l
  induction l with
  | nil => intro s h; exact h
  | cons a t ih => intro s h; exact ih (sysTick s a) (inv_sysTick s h a)

lemma reach_inv (s : Sys) (h : Reachable s) : RegInv s.ports := by
  obtain ⟨l, hl⟩ := h
  rw [← hl]
  exact inv_foldl l sysInit (by decide)

lemma rports_inv (p : Ports) (h : RPorts p) : RegInv p := by
  obtain ⟨l, hl⟩ := h
  rw [← hl]
  exact inv_foldl l sysInit (by decide)

/- ===================== debouncer lemmas ===================== -/

/-- Closed form of one debouncer update. -/
lemma debStep_eq (d : DebounceState) (raw : SelectSwitch_t) :
    debStep d raw =
      if raw = d.stable then
        (if d.bounce = 0 then d
         else DebounceState.mk d.stable (d.bounce - 1)
           (if d.bounce = 1 then true else d.changed))
      else DebounceState.mk raw 19 d.changed := by
  by_cases h : raw = d.stable
  · by_cases hb : d.bounce = 0
    · simp [debStep, h, hb]
    · have h1 : 0 < d.bounce := by omega
      by_cases hb1 : d.bounce = 1
      · simp [debStep, h, hb, hb1, h1]
      · have h2 : d.bounce - 1 ≠ 0 := by omega
        simp [debStep, h, hb, hb1, h1, h2]
  · simp [debStep, h]

lemma debStep_stable (d : DebounceState) (raw : SelectSwitch_t) :
    (debStep d raw).stable = raw := by
  rw [debStep_eq]
  by_cases h : raw = d.stable
  · rw [if_pos h]
    split <;> simp [h]
  · rw [if_neg h]

lemma debStep_bounce (d : DebounceState) (raw : SelectSwitch_t) :
    (debStep d raw).bounce = if raw = d.stable then d.bounce - 1 else 19 := by
  rw [debStep_eq]
  by_cases h : raw = d.stable
  · rw [if_pos h, if_pos h]
    split
    · rename_i hb
      omega
    · rfl
  · rw [if_neg h, if_neg h]

lemma debStep_changed (d : DebounceState) (raw : SelectSwitch_t) :
    (debStep d raw).changed =
      if raw = d.stable ∧ d.bounce = 1 then true else d.changed := by
  rw [debStep_eq]
  by_cases h : raw = d.stable
  · have hrw : (raw = d.stable ∧ d.bounce = 1) = (d.bounce = 1) := by simp [h]
    rw [if_pos h]
    simp only [hrw]
    split
    · rename_i hb
      rw [if_neg (by omega)]
    · rfl
  · have hrw : (raw = d.stable ∧ d.bounce = 1) = False := by simp [h]
    rw [if_neg h]
    simp only [hrw, if_false]

lemma sysTick_deb_stable (s : Sys) (raw : SelectSwitch_t) :
    (sysTick s raw).deb.stable = raw := by
  unfold sysTick
  split <;> simp [debStep_stable]

lemma sysTick_deb_bounce (s : Sys) (raw : SelectSwitch_t) :
    (sysTick s raw).deb.bounce = (debStep s.deb raw).bounce := by
  unfold sysTick
  split <;> rfl

lemma sysTick_deb_changed (s : Sys) (raw : SelectSwitch_t) :
    (sysTick s raw).deb.changed = false := by
  unfold sysTick
  split
  · rfl
  · rename_i h
    simpa using h

lemma sysRun_changed (inputs : Nat → SelectSwitch_t) (n : Nat) :
    (sysRun inputs n).deb.changed = false := by
  cases n with
  | zero => rfl
  | succ n => exact sysTick_deb_changed _ _

lemma sysRun_stable (inputs : Nat → SelectSwitch_t) (n : Nat) :
    (sysRun inputs (n + 1)).deb.stable = inputs n :=
  sysTick_deb_stable _ _

lemma sysRun_bounce_eq (inputs : Nat → SelectSwitch_t) (n : Nat) :
    (sysRun inputs (n + 1)).deb.bounce =
      if inputs n = (sysRun inputs n).deb.stable
      then (sysRun inputs n).deb.bounce - 1 else 19 := by
  rw [show sysRun inputs (n + 1) = sysTick (sysRun inputs n) (inputs n) from rfl,
    sysTick_deb_bounce, debStep_bounce]

lemma sysRun_bounce_le (inputs : Nat → SelectSwitch_t) (n : Nat) :
    (sysRun inputs n).deb.bounce ≤ 19 := by
  induction n with
  | zero =>
    have h0 : (sysRun inputs 0).deb.bounce = 0 := rfl
    omega
  | succ n ih =>
    rw [sysRun_bounce_eq]
    split <;> omega

lemma fires_iff (inputs : Nat → SelectSwitch_t) (n : Nat) :
    fires inputs n = true ↔
      inputs n = (sysRun inputs n).deb.stable ∧
        (sysRun inputs n).deb.bounce = 1 := by
  unfold fires
  rw [debStep_changed, sysRun_changed]
  split
  · rename_i h
    simp [h]
  · rename_i h
    simp [h]

/-- While the countdown is live (SW_BounceCount ≥ 1), the last
20 - SW_BounceCount raw samples were all identical, and the sample that
started the countdown differed from the value tracked before it. -/
lemma run_inv (inputs : Nat → SelectSwitch_t) :
    ∀ n, 1 ≤ (sysRun inputs n).deb.bounce →
      ∃ m, n = m + (20 - (sysRun inputs n).deb.bounce) ∧
        (∀ j, j < 20 - (sysRun inputs n).deb.bounce → inputs (m + j) = inputs m) ∧
        inputs m ≠ (sysRun inputs m).deb.stable := by
  intro n
  induction n with
  | zero =>
    intro h
    have h0 : (sysRun inputs 0).deb.bounce = 0 := rfl
    omega
  | succ n ih =>
    intro h
    have hb := sysRun_bounce_eq inputs n
    by_cases hc : inputs n = (sysRun inputs n).deb.stable
    · rw [hb, if_pos hc] at h ⊢
      have hble := sysRun_bounce_le inputs n
      have hge2 : 2 ≤ (sysRun inputs n).deb.bounce := by omega
      obtain ⟨m, hm, hrun, hne⟩ := ih (by omega)
      refine ⟨m, by omega, ?_, hne⟩
      intro j hj
      rcases Nat.lt_or_ge j (20 - (sysRun inputs n).deb.bounce) with hj1 | hj2
      · exact hrun j hj1
      · have hjeq : j = 20 - (sysRun inputs n).deb.bounce := by omega
        have hn1 : 1 ≤ n := by
          rcases Nat.eq_zero_or_pos n with h0 | h0
          · have hz : (sysRun inputs 0).deb.bounce = 0 := rfl
            omega
          · exact h0
        have hstable : (sysRun inputs n).deb.stable = inputs (n - 1) := by
          have h3 := sysRun_stable inputs (n - 1)
          have h4 : n - 1 + 1 = n := by omega
          rwa [h4] at h3
        have h5 : inputs (n - 1) = inputs m := by
          have h6 : n - 1 = m + (20 - (sysRun inputs n).deb.bounce - 1) := by omega
          rw [h6]
          exact hrun _ (by omega)
        have hmj : m + j = n := by omega
        rw [hmj, hc, hstable, h5]
    · rw [hb, if_neg hc] at h ⊢
      refine ⟨n, by omega, ?_, hc⟩
      intro j hj
      have hj0 : j = 0 := by omega
      simp [hj0]

/- ===================== per-claim helper lemmas ===================== -/

lemma sourceIndex_mem_range (e : SelectSwitch_t) (k : Nat)
    (h : sourceIndex e = some k) : k ∈ List.range 7 := by
  cases e <;> simp [sourceIndex] at h <;> simp [List.mem_range] <;> omega

lemma activeSourceOf_bound (p : Ports) (k : Nat)
    (h : activeSourceOf p = some k) : k < 7 := by
  unfold activeSourceOf at h
  split_ifs at h <;> simp_all <;> omega

lemma recordSourceOf_bound (p : Ports) (k : Nat)
    (h : recordSourceOf p = some k) : 1 ≤ k ∧ k ≤ 5 := by
  unfold recordSourceOf at h
  split_ifs at h <;> simp_all <;> omega

lemma helperC1 :
    ∀ q ∈ InvPairs, ∀ e ∈ swAll, ∀ k ∈ List.range 7,
      sourceIndex e = some k →
      activeSourceOf (Ports.mk q.1 q.2) ≠ some k →
      (k = 6 → recordModeOf (Ports.mk q.1 q.2) = false) →
      activeSourceOf (smStep (Ports.mk q.1 q.2) e) = some k ∧
        mutedOf (smStep (Ports.mk q.1 q.2) e) = mutedOf (Ports.mk q.1 q.2) := by
  decide

lemma helperC2 :
    ∀ q ∈ InvPairs, ∀ e ∈ swAll, ∀ k ∈ List.range 7,
      sourceIndex e = some k →
      activeSourceOf (Ports.mk q.1 q.2) = some k →
      (k = 6 → recordModeOf (Ports.mk q.1 q.2) = false) →
      mutedOf (smStep (Ports.mk q.1 q.2) e) = !mutedOf (Ports.mk q.1 q.2) ∧
        activeSourceOf (smStep (Ports.mk q.1 q.2) e) = activeSourceOf (Ports.mk q.1 q.2) ∧
        recordModeOf (smStep (Ports.mk q.1 q.2) e) = recordModeOf (Ports.mk q.1 q.2) ∧
        recordSourceOf (smStep (Ports.mk q.1 q.2) e) = recordSourceOf (Ports.mk q.1 q.2) ∧
        tapeMonitorOf (smStep (Ports.mk q.1 q.2) e) = tapeMonitorOf (Ports.mk q.1 q.2) ∧
        smStep (smStep (Ports.mk q.1 q.2) e) e = Ports.mk q.1 q.2 := by
  decide

lemma helperC3 :
    ∀ q ∈ InvPairs,
      recordModeOf (Ports.mk q.1 q.2) = true →
      tapeMonitorOf (smStep (Ports.mk q.1 q.2) SW_6) = !tapeMonitorOf (Ports.mk q.1 q.2) ∧
        mutedOf (smStep (Ports.mk q.1 q.2) SW_6) = mutedOf (Ports.mk q.1 q.2) ∧
        recordModeOf (smStep (Ports.mk q.1 q.2) SW_6) = true ∧
        recordSourceOf (smStep (Ports.mk q.1 q.2) SW_6) = recordSourceOf (Ports.mk q.1 q.2) ∧
        (tapeMonitorOf (Ports.mk q.1 q.2) = false →
          activeSourceOf (smStep (Ports.mk q.1 q.2) SW_6) = some 6) ∧
        (tapeMonitorOf (Ports.mk q.1 q.2) = true →
          activeSourceOf (smStep (Ports.mk q.1 q.2) SW_6) = recordSourceOf (Ports.mk q.1 q.2)) := by
  decide

lemma helperC4 :
    ∀ q ∈ InvPairs,
      recordModeOf (smStep (Ports.mk q.1 q.2) SW_REC) = !recordModeOf (Ports.mk q.1 q.2) ∧
        (recordModeOf (Ports.mk q.1 q.2) = true →
          recordSourceOf (smStep (Ports.mk q.1 q.2) SW_REC) = none) ∧
        (recordModeOf (Ports.mk q.1 q.2) = false →
          ∀ k ∈ List.range 7, activeSourceOf (Ports.mk q.1 q.2) = some k → k ≤ 5 →
            recordSourceOf (smStep (Ports.mk q.1 q.2) SW_REC) = some k) ∧
        (recordModeOf (Ports.mk q.1 q.2) = false →
          (activeSourceOf (Ports.mk q.1 q.2) = none ∨
            activeSourceOf (Ports.mk q.1 q.2) = some 6) →
          recordSourceOf (smStep (Ports.mk q.1 q.2) SW_REC) = none) := by
  decide

lemma helperC5 :
    ∀ q ∈ InvPairs,
      (¬(recordModeOf (Ports.mk q.1 q.2) = true ∧
           activeSourceOf (Ports.mk q.1 q.2) = some 6 ∧
           recordSourceOf (Ports.mk q.1 q.2) ≠ none) →
        smStep (smStep (Ports.mk q.1 q.2) SW_REC) SW_REC = Ports.mk q.1 q.2) ∧
      ((recordModeOf (Ports.mk q.1 q.2) = true ∧
          activeSourceOf (Ports.mk q.1 q.2) = some 6 ∧
          recordSourceOf (Ports.mk q.1 q.2) ≠ none) →
        smStep (smStep (Ports.mk q.1 q.2) SW_REC) SW_REC =
          Ports.mk q.1 (q.2 &&& 0xE0)) := by
  decide

lemma helperC6 :
    ∀ q ∈ InvPairs, ∀ i ∈ List.range 6, ∀ j ∈ List.range 6,
      Nat.testBit q.1 i = true → Nat.testBit q.1 j = true → i = j := by
  decide

lemma helperC10 :
    ∀ q ∈ InvPairs, ∀ i ∈ List.range 5,
      Nat.testBit q.1 6 = false → Nat.testBit q.2 i = false := by
  decide

/- ===================== claims ===================== -/

/-- C1 counterexample.  The claim states that a debounced press of a source
button differing from the current active source leaves the state unmuted
(muted = false).  At the power-up state (reachable, muted, no active source,
record mode off) a debounced SW_1 press selects source 1 but leaves the
state muted: mutedOf is still true afterwards, not false. -/
theorem C1_counterexample :
    activeSourceOf initPorts = none ∧
    recordModeOf initPorts = false ∧
    mutedOf initPorts = true ∧
    activeSourceOf (smStep initPorts SW_1) = some 1 ∧
    mutedOf (smStep initPorts SW_1) = true := by
  decide

/-- C1 (amended): for every reachable register state, a debounced press of
source button k whose source differs from the current active source sets the
active source to k and leaves the mute line unchanged (outside the
record-mode tape-monitor special case).  The code never clears the mute
line on a new selection; it only toggles it on a same-source press. -/
theorem C1_theorem (p : Ports) (hp : RPorts p) (e : SelectSwitch_t) (k : Nat)
    (hk : sourceIndex e = some k)
    (hdiff : activeSourceOf p ≠ some k)
    (hspecial : k = 6 → recordModeOf p = false) :
    activeSourceOf (smStep p e) = some k ∧ mutedOf (smStep p e) = mutedOf p := by
  have hq := rports_inv p hp
  exact helperC1 (p.portB, p.portC) hq e (swAll_mem e) k
    (sourceIndex_mem_range e k hk) hk hdiff hspecial

/-- C1 witness: the amended claim at the power-up state and source 1. -/
theorem C1_witness :
    activeSourceOf (smStep initPorts SW_1) = some 1 ∧
    mutedOf (smStep initPorts SW_1) = mutedOf initPorts :=
  C1_theorem initPorts ⟨[], rfl⟩ SW_1 1 rfl (by decide) (by decide)

/-- C2 counterexample.  The claim states that a debounced press of the
source button equal to the current active source toggles muted and changes
no other field, for every reachable state.  The state PORTB = 96, PORTC = 0
(record mode on, active source = tape, reached by pressing tape and then
record) violates it: pressing tape again leaves muted unchanged and changes
the active source to none (the record-mode tape-monitor branch runs even
when tape is the active source). -/
theorem C2_counterexample :
    RPorts (Ports.mk 96 0) ∧
    activeSourceOf (Ports.mk 96 0) = some 6 ∧
    mutedOf (smStep (Ports.mk 96 0) SW_6) = mutedOf (Ports.mk 96 0) ∧
    activeSourceOf (smStep (Ports.mk 96 0) SW_6) = none :=
  ⟨⟨List.replicate 20 SW_6 ++ List.replicate 20 SW_REC, by decide⟩,
    by decide, by decide, by decide⟩

/-- C2 (amended): for every reachable register state, a debounced press of
the source button equal to the current active source toggles muted and
changes nothing else, and pressing it twice restores the state exactly —
provided the press is not a tape press while record mode is on (in that
case the tape-monitor toggle runs instead). -/
theorem C2_theorem (p : Ports) (hp : RPorts p) (e : SelectSwitch_t) (k : Nat)
    (hk : sourceIndex e = some k)
    (hsame : activeSourceOf p = some k)
    (hspecial : k = 6 → recordModeOf p = false) :
    mutedOf (smStep p e) = !mutedOf p ∧
    activeSourceOf (smStep p e) = activeSourceOf p ∧
    recordModeOf (smStep p e) = recordModeOf p ∧
    recordSourceOf (smStep p e) = recordSourceOf p ∧
    tapeMonitorOf (smStep p e) = tapeMonitorOf p ∧
    smStep (smStep p e) e = p := by
  have hq := rports_inv p hp
  exact helperC2 (p.portB, p.portC) hq e (swAll_mem e) k
    (sourceIndex_mem_range e k hk) hk hsame hspecial

/-- C2 witness: the amended claim at the reachable state with source 1
active (PORTB = 1, PORTC = 0). -/
theorem C2_witness :
    mutedOf (smStep (Ports.mk 1 0) SW_1) = !mutedOf (Ports.mk 1 0) :=
  (C2_theorem (Ports.mk 1 0) ⟨List.replicate 20 SW_1, by decide⟩ SW_1 1 rfl
    (by decide) (by decide)).1

/-- C3: for every reachable register state with record mode on, a debounced
tape press toggles the tape monitor, leaves muted, record mode and the
record source unchanged, and swaps the amplifier listening source between
the tape output and the record source: if the monitor was off the active
source becomes tape, and if it was on the active source becomes the record
source. -/
theorem C3_theorem (p : Ports) (hp : RPorts p)
    (hrec : recordModeOf p = true) :
    tapeMonitorOf (smStep p SW_6) = !tapeMonitorOf p ∧
    mutedOf (smStep p SW_6) = mutedOf p ∧
    recordModeOf (smStep p SW_6) = true ∧
    recordSourceOf (smStep p SW_6) = recordSourceOf p ∧
    (tapeMonitorOf p = false → activeSourceOf (smStep p SW_6) = some 6) ∧
    (tapeMonitorOf p = true → activeSourceOf (smStep p SW_6) = recordSourceOf p) :=
  helperC3 (p.portB, p.portC) (rports_inv p hp) hrec

/-- C3 witness: the claim at the reachable record-mode state PORTB = 64. -/
theorem C3_witness :
    tapeMonitorOf (smStep (Ports.mk 64 0) SW_6) = !tapeMonitorOf (Ports.mk 64 0) :=
  (C3_theorem (Ports.mk 64 0) ⟨List.replicate 20 SW_REC, by decide⟩ (by decide)).1

/-- C4: for every reachable register state, a debounced record press
toggles record mode; when the toggle turns record mode off the record
source is cleared to none, and when it turns record mode on the record
source becomes the active source if that is one of the five non-tape
sources, and stays none otherwise (active source none or tape). -/
theorem C4_theorem (p : Ports) (hp : RPorts p) :
    recordModeOf (smStep p SW_REC) = !recordModeOf p ∧
    (recordModeOf p = true → recordSourceOf (smStep p SW_REC) = none) ∧
    (recordModeOf p = false → ∀ k, activeSourceOf p = some k → k ≤ 5 →
      recordSourceOf (smStep p SW_REC) = some k) ∧
    (recordModeOf p = false →
      (activeSourceOf p = none ∨ activeSourceOf p = some 6) →
      recordSourceOf (smStep p SW_REC) = none) := by
  have hq := rports_inv p hp
  have h := helperC4 (p.portB, p.portC) hq
  refine ⟨h.1, h.2.1, ?_, h.2.2.2⟩
  intro hmode k hk hk5
  exact h.2.2.1 hmode k (List.mem_range.mpr (activeSourceOf_bound p k hk)) hk hk5

/-- C4 witness: turning record mode on with source 1 active routes source 1
to the recorder. -/
theorem C4_witness :
    recordSourceOf (smStep (Ports.mk 1 0) SW_REC) = some 1 :=
  (C4_theorem (Ports.mk 1 0) ⟨List.replicate 20 SW_1, by decide⟩).2.2.1
    (by decide) 1 (by decide) (by decide)

/-- C5 counterexample.  The claim states that two debounced record presses
with no intervening event restore the state exactly, the only exception
being an active-source change between the presses.  The reachable state
PORTB = 96, PORTC = 1 (record mode on, listening to the tape output,
record source = disc) violates it: the active source (tape) is unchanged by
the first press, yet the double press does not restore the state — the
record source is lost. -/
theorem C5_counterexample :
    RPorts (Ports.mk 96 1) ∧
    activeSourceOf (smStep (Ports.mk 96 1) SW_REC) = activeSourceOf (Ports.mk 96 1) ∧
    smStep (smStep (Ports.mk 96 1) SW_REC) SW_REC ≠ Ports.mk 96 1 :=
  ⟨⟨List.replicate 20 SW_1 ++ List.replicate 20 SW_REC ++ List.replicate 20 SW_6,
      by decide⟩,
    by decide, by decide⟩

/-- C5 (amended): for every reachable register state, two debounced record
presses with no intervening event restore the state exactly, unless record
mode is on, the active source is tape (the tape monitor is engaged) and a
record source is present; in that exceptional case everything is restored
except the record source, which is cleared. -/
theorem C5_theorem (p : Ports) (hp : RPorts p) :
    (¬(recordModeOf p = true ∧ activeSourceOf p = some 6 ∧
         recordSourceOf p ≠ none) →
      smStep (smStep p SW_REC) SW_REC = p) ∧
    ((recordModeOf p = true ∧ activeSourceOf p = some 6 ∧
        recordSourceOf p ≠ none) →
      smStep (smStep p SW_REC) SW_REC = Ports.mk p.portB (p.portC &&& 0xE0)) :=
  helperC5 (p.portB, p.portC) (rports_inv p hp)

/-- C5 witness: the double record press restores the power-up state. -/
theorem C5_witness :
    smStep (smStep initPorts SW_REC) SW_REC = initPorts :=
  (C5_theorem initPorts ⟨[], rfl⟩).1 (by decide)

/-- C6: in every loop state reachable from power-up, at most one of the six
source indicator lines PORTB 0..5 is asserted. -/
theorem C6_theorem (s : Sys) (hs : Reachable s) (i j : Nat)
    (hi : i < 6) (hj : j < 6)
    (hbi : s.ports.portB.testBit i = true)
    (hbj : s.ports.portB.testBit j = true) : i = j :=
  helperC6 (s.ports.portB, s.ports.portC) (reach_inv s hs)
    i (List.mem_range.mpr hi) j (List.mem_range.mpr hj) hbi hbj

/-- C6 witness: the invariant applied after a debounced source-1 press. -/
theorem C6_witness : (0 : Nat) = 0 :=
  C6_theorem (runSys (List.replicate 20 SW_1)) ⟨List.replicate 20 SW_1, rfl⟩
    0 0 (by decide) (by decide) (by decide) (by decide)

/-- C7: in every loop state reachable from power-up, the record source is
never the tape source 6: it is either absent or one of the five non-tape
sources 1..5 (there is no record-source indicator for tape, and the copy
mask 0b00011111 excludes the tape LED bit). -/
theorem C7_theorem (s : Sys) (hs : Reachable s) :
    recordSourceOf s.ports ≠ some 6 ∧
    ∀ k, recordSourceOf s.ports = some k → 1 ≤ k ∧ k ≤ 5 := by
  have hinv := reach_inv s hs
  refine ⟨fun h6 => ?_, fun k hk => recordSourceOf_bound s.ports k hk⟩
  have := recordSourceOf_bound s.ports 6 h6
  omega

/-- C7 witness: the invariant at the power-up state. -/
theorem C7_witness : recordSourceOf (runSys []).ports ≠ some 6 :=
  (C7_theorem (runSys []) ⟨[], rfl⟩).1

/-- C8: whenever the debouncer emits changed = true at tick n, the last 20
raw samples (ticks n-19 .. n) were all identical, the first sample of that
run differed from the value tracked before it, and the pulse lasts exactly
one tick (no emission at tick n+1).  In particular, a raw stream in which
no value is sampled on 20 or more consecutive ticks never produces
changed = true. -/
theorem C8_theorem (inputs : Nat → SelectSwitch_t) (n : Nat)
    (h : fires inputs n = true) :
    19 ≤ n ∧
    (∀ j, j ≤ 19 → inputs (n - j) = inputs n) ∧
    inputs (n - 19) ≠ (sysRun inputs (n - 19)).deb.stable ∧
    fires inputs (n + 1) = false := by
  obtain ⟨hst, hb1⟩ := (fires_iff inputs n).mp h
  obtain ⟨m, hm, hrun, hne⟩ := run_inv inputs n (by omega)
  rw [hb1] at hm hrun
  have h19 : 19 ≤ n := by omega
  have hstable : (sysRun inputs n).deb.stable = inputs (n - 1) := by
    have h3 := sysRun_stable inputs (n - 1)
    have h4 : n - 1 + 1 = n := by omega
    rwa [h4] at h3
  have hnm : inputs n = inputs m := by
    rw [hst, hstable, show n - 1 = m + 18 from by omega]
    exact hrun 18 (by omega)
  refine ⟨h19, ?_, ?_, ?_⟩
  · intro j hj
    rcases Nat.eq_zero_or_pos j with hj0 | hj0
    · simp [hj0]
    · rw [show n - j = m + (19 - j) from by omega, hrun (19 - j) (by omega), hnm]
  · rw [show n - 19 = m from by omega]
    exact hne
  · have hb0 : (sysRun inputs (n + 1)).deb.bounce = 0 := by
      rw [sysRun_bounce_eq, if_pos hst, hb1]
    cases hf : fires inputs (n + 1) with
    | false => rfl
    | true =>
      obtain ⟨_, hb⟩ := (fires_iff inputs (n + 1)).mp hf
      rw [hb0] at hb
      exact absurd hb (by omega)

/-- C8 witness: under the constant SW_1 stream the debouncer fires at tick
19 (the 20th consecutive identical sample) and is silent at tick 20. -/
theorem C8_witness : fires (fun _ => SW_1) 20 = false :=
  (C8_theorem (fun _ => SW_1) 19 (by decide)).2.2.2

/-- C9 counterexample.  The claim states the debouncer never produces the
output pair (stableId = none, changed = true).  It does: press SW_1 for one
tick and release; twenty ticks after the release the debouncer fires with
the stable identity SW_none. -/
theorem C9_counterexample :
    fires (fun n => if n = 0 then SW_1 else SW_none) 20 = true ∧
    (sysRun (fun n => if n = 0 then SW_1 else SW_none) 21).deb.stable = SW_none := by
  decide

/-- C9 (amended): the debouncer does emit changed = true with
stableId = SW_none (for instance after every release), but such an event
never changes the register state: the processing block is the identity on
SW_none (the switch statement falls through its default case and the
record-source block is guarded by SW_Stable != SW_none). -/
theorem C9_theorem (p : Ports) : smStep p SW_none = p := rfl

/-- C10: in every loop state reachable from power-up, whenever the record
LED is off all five record-source indicator lines PORTC 0..4 are
de-asserted (the record-source LEDs are actively cleared whenever record
mode is left). -/
theorem C10_theorem (s : Sys) (hs : Reachable s)
    (hrec : recordModeOf s.ports = false) :
    ∀ i, i < 5 → s.ports.portC.testBit i = false := by
  intro i hi
  exact helperC10 (s.ports.portB, s.ports.portC) (reach_inv s hs)
    i (List.mem_range.mpr hi) hrec

/-- C10 witness: the invariant at the power-up state. -/
theorem C10_witness : (runSys []).ports.portC.testBit 0 = false :=
  C10_theorem (runSys []) ⟨[], rfl⟩ (by decide) 0 (by decide)
